import Mathlib

/-
Shallow embedding of `prestornado/common.py` (package-private DB-API support
layer): the cursor base class `DBAPICursor` with its polling fetch loop, the
`DBAPITypeObject` type-comparison helper, and the `ParamEscaper` literal
escaper.  Machine-level aspects of the Python runtime (the tornado scheduler,
`time.sleep`, string formatting) are modelled explicitly; the abstract
`_fetch_more` hook is modelled by its documented contract: each invocation
appends rows to the pending queue and updates the state field.
-/

namespace Prestornado

/-- States of the cursor state machine, mirroring the class constants
`_STATE_NONE = 0`, `_STATE_RUNNING = 1`, `_STATE_FINISHED = 2`. -/
inductive QueryState
  | STATE_NONE
  | STATE_RUNNING
  | STATE_FINISHED
deriving DecidableEq

/-- The mutable fields of a `DBAPICursor` instance.  `data` is the
`collections.deque` `self._data` (head = left end, rows are popped from the
head and appended at the tail); `arraysizeAttr` is the `_arraysize` backing
attribute, which does not exist (`Option.none`) until the `arraysize` setter
first runs. -/
structure DBAPICursor (α : Type) where
  poll_interval : Nat
  rownumber : Nat
  state : QueryState
  data : List α
  columns : Option (List String)
  arraysizeAttr : Option Nat
  lastrowid : Option Nat
deriving DecidableEq

/-- Embedding of `DBAPICursor._reset_state`: zero the row counter, set the
state to NONE, clear the pending rows and the column metadata. -/
def resetState {α : Type} (c : DBAPICursor α) : DBAPICursor α :=
  { c with rownumber := 0, state := QueryState.STATE_NONE, data := [],
           columns := none }

/-- Embedding of `DBAPICursor.__init__(poll_interval)`: store the poll
interval, run `_reset_state`, and set `lastrowid = None`.  The `_arraysize`
attribute is never created here. -/
def freshCursor (α : Type) (poll : Nat) : DBAPICursor α :=
  resetState { poll_interval := poll, rownumber := 0,
               state := QueryState.STATE_NONE, data := [], columns := none,
               arraysizeAttr := none, lastrowid := none }

/-- One invocation of the abstract `_fetch_more` hook, modelled by its
documented contract ("Get more results, append it to `self._data`, and update
`self._state`"): a batch of rows appended at the tail of the queue together
with the state value the hook leaves behind. -/
structure Batch (α : Type) where
  rows : List α
  newState : QueryState
deriving DecidableEq

/-- Effect of one `_fetch_more` call on the cursor, given the batch it
delivers. -/
def fetchMore {α : Type} (c : DBAPICursor α) (b : Batch α) : DBAPICursor α :=
  { c with data := c.data ++ b.rows, state := b.newState }

/-- Result of a terminating run of the `_fetch_while` loop: the cursor on
exit, the unconsumed remainder of the hook's batch supply, the number of
`_fetch_more` invocations and the number of `time.sleep` pauses performed. -/
structure FWResult (α : Type) where
  c : DBAPICursor α
  bs : List (Batch α)
  fetches : Nat
  sleeps : Nat
deriving DecidableEq

/-- Embedding of `DBAPICursor._fetch_while(fn)`:
`while fn(): yield self._fetch_more(); if fn(): time.sleep(poll_interval)`.
The hook's behaviour across successive calls is the list `bs` of batches, one
consumed per call; `Option.none` means the supplied batches run out while the
predicate still holds, i.e. the loop does not terminate on this supply. -/
def fetchWhile {α : Type} (fn : DBAPICursor α → Bool) :
    List (Batch α) → DBAPICursor α → Option (FWResult α)
  | [], c => if fn c then none else some ⟨c, [], 0, 0⟩
  | b :: rest, c =>
    if fn c then
      match fetchWhile fn rest (fetchMore c b) with
      | none => none
      | some r =>
        some ⟨r.c, r.bs, r.fetches + 1,
              r.sleeps + (if fn (fetchMore c b) then 1 else 0)⟩
    else some ⟨c, b :: rest, 0, 0⟩

/-- Error values raised by the embedded code. `ProgrammingError` comes from
`prestornado.exc`; `NotImplementedError`, `AttributeError` and
`UnicodeDecodeError` are the Python builtins that the code can raise. -/
inductive PyErr
  | ProgrammingError (msg : String)
  | NotImplementedError
  | AttributeError (missing : String)
  | UnicodeDecodeError
deriving DecidableEq

/-- Outcome of one `fetchone` call: an exception, divergence of the poll loop
(relative to the supplied batch list), or a returned row (`none` being the
end-of-results sentinel `None`) together with the updated cursor, the
remaining batch supply and the loop's fetch/sleep counts. -/
inductive FetchOutcome (α : Type)
  | err (e : PyErr)
  | diverge
  | ok (row : Option α) (c : DBAPICursor α) (bs : List (Batch α))
       (fetches sleeps : Nat)
deriving DecidableEq

/-- The loop predicate `lambda: not self._data and self._state !=
self._STATE_FINISHED` passed by `fetchone` to `_fetch_while`. -/
def fetchonePred {α : Type} (c : DBAPICursor α) : Bool :=
  c.data.isEmpty && !(decide (c.state = QueryState.STATE_FINISHED))

/-- Embedding of `DBAPICursor.fetchone`: raise `ProgrammingError("No query
yet")` when the state is NONE; otherwise poll with `_fetch_while` until rows
are pending or the state is FINISHED, then return `None` if the queue is
empty, else increment `_rownumber` and pop the head of the queue. -/
def fetchone {α : Type} (c : DBAPICursor α) (bs : List (Batch α)) :
    FetchOutcome α :=
  if c.state = QueryState.STATE_NONE then
    FetchOutcome.err (PyErr.ProgrammingError "No query yet")
  else
    match fetchWhile fetchonePred bs c with
    | none => FetchOutcome.diverge
    | some r =>
      match r.c.data with
      | [] => FetchOutcome.ok none r.c r.bs r.fetches r.sleeps
      | x :: rest =>
        FetchOutcome.ok (some x)
          { r.c with rownumber := r.c.rownumber + 1, data := rest }
          r.bs r.fetches r.sleeps

theorem fetchWhile_exit {α : Type} (fn : DBAPICursor α → Bool) :
    ∀ (bs : List (Batch α)) (c : DBAPICursor α) (r : FWResult α),
      fetchWhile fn bs c = some r → fn r.c = false := by
  intro bs
  induction bs with
  | nil =>
    intro c r h
    by_cases hc : fn c = true
    · simp [fetchWhile, hc] at h
    · have hcf : fn c = false := by simpa using hc
      simp only [fetchWhile, hcf, Bool.false_eq_true, if_false,
                 Option.some.injEq] at h
      rw [← h]
      exact hcf
  | cons b rest ih =>
    intro c r h
    by_cases hc : fn c = true
    · cases hrec : fetchWhile fn rest (fetchMore c b) with
      | none => simp [fetchWhile, hc, hrec] at h
      | some r0 =>
        simp only [fetchWhile, hc, if_true, hrec, Option.some.injEq] at h
        have h2 := ih (fetchMore c b) r0 hrec
        rw [← h]
        exact h2
    · have hcf : fn c = false := by simpa using hc
      simp only [fetchWhile, hcf, Bool.false_eq_true, if_false,
                 Option.some.injEq] at h
      rw [← h]
      exact hcf

theorem fetchWhile_not_entered {α : Type} (fn : DBAPICursor α → Bool)
    (bs : List (Batch α)) (c : DBAPICursor α) (h : fn c = false) :
    fetchWhile fn bs c = some ⟨c, bs, 0, 0⟩ := by
  cases bs with
  | nil => simp [fetchWhile, h]
  | cons b rest => simp [fetchWhile, h]

/-- C1: `fetchone` raises `ProgrammingError("No query yet")` exactly when the
cursor state is NONE (in particular on a freshly constructed cursor);
otherwise, once the poll loop exits with pending rows or in state FINISHED,
it pops and returns the head of the pending queue and increments the row
counter, and returns the sentinel `None` without incrementing the counter
when the queue is empty (which forces state FINISHED). -/
theorem fetchone_no_query_iff_state_none (α : Type) (c : DBAPICursor α)
    (bs : List (Batch α)) :
    (fetchone c bs = FetchOutcome.err (PyErr.ProgrammingError "No query yet")
       ↔ c.state = QueryState.STATE_NONE) ∧
    (∀ p, fetchone (freshCursor α p) bs
       = FetchOutcome.err (PyErr.ProgrammingError "No query yet")) ∧
    (∀ r : FWResult α, c.state ≠ QueryState.STATE_NONE →
       fetchWhile fetchonePred bs c = some r →
       ((r.c.data = [] → r.c.state = QueryState.STATE_FINISHED ∧
           fetchone c bs = FetchOutcome.ok none r.c r.bs r.fetches r.sleeps) ∧
        (∀ x t, r.c.data = x :: t →
           fetchone c bs = FetchOutcome.ok (some x)
             { r.c with rownumber := r.c.rownumber + 1, data := t }
             r.bs r.fetches r.sleeps))) := by
  refine ⟨⟨?_, fun hs => by simp [fetchone, hs]⟩, fun p => ?_, ?_⟩
  · intro h
    by_contra hne
    unfold fetchone at h
    rw [if_neg hne] at h
    cases hw : fetchWhile fetchonePred bs c with
    | none => rw [hw] at h; exact FetchOutcome.noConfusion h
    | some r =>
      rw [hw] at h
      cases hd : r.c.data with
      | nil => simp [hd] at h
      | cons x t => simp [hd] at h
  · have hs : (freshCursor α p).state = QueryState.STATE_NONE := rfl
    simp [fetchone, hs]
  · intro r hne hw
    have hfn := fetchWhile_exit fetchonePred bs c r hw
    constructor
    · intro hd
      have hstate : r.c.state = QueryState.STATE_FINISHED := by
        simp [fetchonePred, hd] at hfn
        exact hfn
      refine ⟨hstate, ?_⟩
      unfold fetchone
      rw [if_neg hne, hw]
      simp [hd]
    · intro x t hd
      unfold fetchone
      rw [if_neg hne, hw]
      simp [hd]

/-- Concrete running cursor with one pending row, used as the C1 witness
input. -/
def wCursorC1 : DBAPICursor Nat :=
  { poll_interval := 1, rownumber := 0, state := QueryState.STATE_RUNNING,
    data := [5], columns := none, arraysizeAttr := none, lastrowid := none }

/-- Witness for C1: on a running cursor with pending row 5 and an empty batch
supply, `fetchone` returns the row and bumps the row counter. -/
theorem fetchone_no_query_iff_state_none_witness :
    fetchone wCursorC1 ([] : List (Batch Nat))
      = FetchOutcome.ok (some 5)
          { wCursorC1 with rownumber := 1, data := [] } [] 0 0 :=
  ((fetchone_no_query_iff_state_none Nat wCursorC1 []).2.2
      ⟨wCursorC1, [], 0, 0⟩ (by decide) rfl).2 5 [] rfl

/-- C10: when `fetchone` starts with pending rows or in state FINISHED, the
poll loop's predicate is false on entry, so the loop body runs zero times:
the `_fetch_more` hook is never invoked, no `time.sleep` pause occurs, and
the batch supply is returned untouched. -/
theorem fetchone_ready_no_fetch_no_sleep {α : Type} (c : DBAPICursor α)
    (bs : List (Batch α))
    (h : c.data ≠ [] ∨ c.state = QueryState.STATE_FINISHED) :
    fetchWhile fetchonePred bs c = some ⟨c, bs, 0, 0⟩ ∧
    (c.state ≠ QueryState.STATE_NONE →
      ∃ row c2, fetchone c bs = FetchOutcome.ok row c2 bs 0 0) := by
  have hp : fetchonePred c = false := by
    cases h with
    | inl hd =>
      cases hcd : c.data with
      | nil => exact absurd hcd hd
      | cons y ys => simp [fetchonePred, hcd]
    | inr hs => simp [fetchonePred, hs]
  refine ⟨fetchWhile_not_entered _ bs c hp, fun hne => ?_⟩
  unfold fetchone
  rw [if_neg hne, fetchWhile_not_entered _ bs c hp]
  cases hd : c.data with
  | nil => exact ⟨none, c, by simp [hd]⟩
  | cons x t =>
    exact ⟨some x, { c with rownumber := c.rownumber + 1, data := t },
           by simp [hd]⟩

/-- Concrete running cursor with one pending row, used as the C10 witness
input. -/
def wCursorC10 : DBAPICursor Nat :=
  { poll_interval := 1, rownumber := 0, state := QueryState.STATE_RUNNING,
    data := [7], columns := none, arraysizeAttr := none, lastrowid := none }

/-- Witness for C10: with a pending row and a non-empty batch supply, the
poll loop consumes nothing and performs zero fetches and zero sleeps. -/
theorem fetchone_ready_no_fetch_no_sleep_witness :
    fetchWhile fetchonePred [⟨[9], QueryState.STATE_RUNNING⟩] wCursorC10
      = some ⟨wCursorC10, [⟨[9], QueryState.STATE_RUNNING⟩], 0, 0⟩ :=
  (fetchone_ready_no_fetch_no_sleep wCursorC10
      [⟨[9], QueryState.STATE_RUNNING⟩] (Or.inl (by decide))).1

/-- Cursor as it stands right after a (modelled) successful `execute`:
state RUNNING, no pending rows, row counter reset. -/
def runningCursor (α : Type) : DBAPICursor α :=
  { poll_interval := 1, rownumber := 0, state := QueryState.STATE_RUNNING,
    data := [], columns := none, arraysizeAttr := none, lastrowid := none }

/-- Batch supply of a `_fetch_more` hook that delivers the rows r1, r2, r3 in
one call and simultaneously signals completion. -/
def threeRowBatches {α : Type} (r1 r2 r3 : α) : List (Batch α) :=
  [⟨[r1, r2, r3], QueryState.STATE_FINISHED⟩]

/-- Cursor in state FINISHED with the given pending rows and row counter. -/
def finishedCursor (α : Type) (ds : List α) (n : Nat) : DBAPICursor α :=
  { (runningCursor α) with
    state := QueryState.STATE_FINISHED
    data := ds
    rownumber := n }

/-- C2 (amended): for a cursor whose hook supplies rows r1, r2, r3 and then
signals completion, four successive `fetchone` calls return r1, r2, r3 and
the sentinel `None`, and `rownumber` reads 1, 2, 3, 3 respectively after
each of those four calls (it counts rows already returned, starting at 0
before the first call, and is not incremented by the sentinel). -/
theorem fetchone_three_rows_sequence (α : Type) (r1 r2 r3 : α) :
    fetchone (runningCursor α) (threeRowBatches r1 r2 r3)
      = FetchOutcome.ok (some r1) (finishedCursor α [r2, r3] 1) [] 1 0 ∧
    (finishedCursor α [r2, r3] 1).rownumber = 1 ∧
    fetchone (finishedCursor α [r2, r3] 1) []
      = FetchOutcome.ok (some r2) (finishedCursor α [r3] 2) [] 0 0 ∧
    (finishedCursor α [r3] 2).rownumber = 2 ∧
    fetchone (finishedCursor α [r3] 2) []
      = FetchOutcome.ok (some r3) (finishedCursor α [] 3) [] 0 0 ∧
    (finishedCursor α [] 3).rownumber = 3 ∧
    fetchone (finishedCursor α [] 3) []
      = FetchOutcome.ok none (finishedCursor α [] 3) [] 0 0 := by
  refine ⟨?_, ?_, ?_, ?_, ?_, ?_, ?_⟩ <;> rfl

/-- The cursor an outcome carries, or the fallback for non-row outcomes. -/
def resultCursor {α : Type} (o : FetchOutcome α) (fallback : DBAPICursor α) :
    DBAPICursor α :=
  match o with
  | FetchOutcome.ok _ c _ _ _ => c
  | _ => fallback

/-- C2 counterexample: with rows 10, 20, 30 supplied by the hook, the cursor
resulting from the first `fetchone` call has `rownumber` 1, not 0 as the
claim states (the code increments the counter before returning each row). -/
theorem rownumber_after_first_fetchone_ne_zero :
    ¬ ((resultCursor (fetchone (runningCursor Nat) (threeRowBatches 10 20 30))
          (runningCursor Nat)).rownumber = 0) := by decide

/-- Result of a terminating run of the drain loop inside `executemany`: the
cursor on exit, the unconsumed batch supply, the number of `_fetch_more`
invocations. -/
structure DrainResult (α : Type) where
  c : DBAPICursor α
  bs : List (Batch α)
  fetches : Nat
deriving DecidableEq

/-- Embedding of the drain loop of `executemany`:
`while self._state != self._STATE_FINISHED: yield self._fetch_more()`.
`Option.none` means the batches run out before the state reaches FINISHED,
i.e. the loop does not terminate on this supply. -/
def drain {α : Type} : List (Batch α) → DBAPICursor α → Option (DrainResult α)
  | [], c =>
    if c.state = QueryState.STATE_FINISHED then some ⟨c, [], 0⟩ else none
  | b :: rest, c =>
    if c.state = QueryState.STATE_FINISHED then some ⟨c, b :: rest, 0⟩
    else
      match drain rest (fetchMore c b) with
      | none => none
      | some r => some ⟨r.c, r.bs, r.fetches + 1⟩

/-- Events observable during `executemany`: one call of the abstract
`execute` with a parameter set, or one invocation of the `_fetch_more`
hook. -/
inductive ExecEvent (β : Type)
  | execEv (p : β)
  | fetchEv
deriving DecidableEq

/-- Embedding of `DBAPICursor.executemany`, with the abstract `execute`
supplied as a cursor transformer `ex`: for every parameter set of
`seq_of_parameters` except the last, execute it and run the drain loop to
FINISHED; then, if the sequence is non-empty, execute the last parameter set
and stop.  Returns the final cursor, the unconsumed batch supply and the
trace of execute / fetch events; `Option.none` when a drain loop does not
terminate on the supplied batches. -/
def executemany {α β : Type} (ex : β → DBAPICursor α → DBAPICursor α) :
    List β → DBAPICursor α → List (Batch α) →
    Option (DBAPICursor α × List (Batch α) × List (ExecEvent β))
  | [], c, bs => some (c, bs, [])
  | [p], c, bs => some (ex p c, bs, [ExecEvent.execEv p])
  | p :: q :: rest, c, bs =>
    match drain bs (ex p c) with
    | none => none
    | some d =>
      match executemany ex (q :: rest) d.c d.bs with
      | none => none
      | some (cf, bsf, tr) =>
        some (cf, bsf, ExecEvent.execEv p ::
                (List.replicate d.fetches ExecEvent.fetchEv ++ tr))

/-- The parameter sets executed in a trace, in order. -/
def execParams {β : Type} (tr : List (ExecEvent β)) : List β :=
  tr.filterMap (fun e => match e with
    | ExecEvent.execEv p => some p
    | ExecEvent.fetchEv => none)

/-- Modelled from the spec: the abstract `execute` of a concrete driver
resets the per-query state and transitions the cursor to RUNNING as part of
submitting the query (the spec states that a concrete implementation must
transition state away from NONE, typically to RUNNING, and that the reset is
invoked at the start of handling a new query). -/
def specExecute {α β : Type} : β → DBAPICursor α → DBAPICursor α :=
  fun _ c => { (resetState c) with state := QueryState.STATE_RUNNING }

theorem drain_characterization {α : Type} :
    ∀ (bs : List (Batch α)) (c : DBAPICursor α) (r : DrainResult α),
      drain bs c = some r →
        r.c = (bs.take r.fetches).foldl fetchMore c ∧
        r.bs = bs.drop r.fetches ∧
        r.c.state = QueryState.STATE_FINISHED ∧
        (∀ j, j < r.fetches →
          ((bs.take j).foldl fetchMore c).state ≠ QueryState.STATE_FINISHED) := by
  intro bs
  induction bs with
  | nil =>
    intro c r h
    by_cases hf : c.state = QueryState.STATE_FINISHED
    · simp only [drain, hf, if_true, Option.some.injEq] at h
      refine ⟨?_, ?_, ?_, ?_⟩ <;> simp [← h, hf]
    · simp [drain, hf] at h
  | cons b rest ih =>
    intro c r h
    by_cases hf : c.state = QueryState.STATE_FINISHED
    · simp only [drain, hf, if_true, Option.some.injEq] at h
      refine ⟨?_, ?_, ?_, ?_⟩ <;> simp [← h, hf]
    · cases hrec : drain rest (fetchMore c b) with
      | none => simp [drain, hf, hrec] at h
      | some r0 =>
        simp only [drain, hf, if_false, hrec, Option.some.injEq] at h
        obtain ⟨hc, hbs, hst, hmin⟩ := ih (fetchMore c b) r0 hrec
        subst h
        refine ⟨?_, ?_, hst, ?_⟩
        · simpa [List.take_succ_cons, List.foldl_cons] using hc
        · simpa [List.drop_succ_cons] using hbs
        · intro j hj
          cases j with
          | zero => simpa using hf
          | succ j0 =>
            have hj1 : j0 + 1 < r0.fetches + 1 := hj
            have hj0 : j0 < r0.fetches := by omega
            simpa [List.take_succ_cons, List.foldl_cons] using hmin j0 hj0

theorem execParams_cons_exec {β : Type} (p : β) (tr : List (ExecEvent β)) :
    execParams (ExecEvent.execEv p :: tr) = p :: execParams tr := by
  simp [execParams]

theorem execParams_append {β : Type} (t1 t2 : List (ExecEvent β)) :
    execParams (t1 ++ t2) = execParams t1 ++ execParams t2 := by
  simp [execParams, List.filterMap_append]

theorem execParams_replicate_fetch {β : Type} (n : Nat) :
    execParams (List.replicate n (ExecEvent.fetchEv : ExecEvent β)) = [] := by
  induction n with
  | zero => rfl
  | succ k ih => simp [List.replicate_succ, execParams] at ih ⊢

theorem executemany_trace {α β : Type}
    (ex : β → DBAPICursor α → DBAPICursor α) :
    ∀ (ps : List β) (c : DBAPICursor α) (bs : List (Batch α))
      (cf : DBAPICursor α) (bsf : List (Batch α)) (tr : List (ExecEvent β)),
      executemany ex ps c bs = some (cf, bsf, tr) →
        execParams tr = ps ∧
        (ps ≠ [] → ∃ tr0 pl, ps.getLast? = some pl ∧
           tr = tr0 ++ [ExecEvent.execEv pl]) := by
  intro ps
  induction ps with
  | nil =>
    intro c bs cf bsf tr h
    simp only [executemany, Option.some.injEq, Prod.mk.injEq] at h
    refine ⟨?_, fun hne => absurd rfl hne⟩
    rw [← h.2.2]
    rfl
  | cons p qs ih =>
    intro c bs cf bsf tr h
    cases qs with
    | nil =>
      simp only [executemany, Option.some.injEq, Prod.mk.injEq] at h
      rw [← h.2.2]
      refine ⟨rfl, fun _ => ⟨[], p, rfl, rfl⟩⟩
    | cons q rest =>
      cases hd : drain bs (ex p c) with
      | none => simp [executemany, hd] at h
      | some d =>
        cases hrec : executemany ex (q :: rest) d.c d.bs with
        | none => simp [executemany, hd, hrec] at h
        | some out =>
          obtain ⟨cf0, bsf0, tr0⟩ := out
          simp only [executemany, hd, hrec, Option.some.injEq,
                     Prod.mk.injEq] at h
          obtain ⟨hparams, hlast⟩ := ih d.c d.bs cf0 bsf0 tr0 hrec
          obtain ⟨tr1, pl, hpl, htr1⟩ := hlast (by simp)
          rw [← h.2.2]
          constructor
          · simp [execParams_cons_exec, execParams_append,
                  execParams_replicate_fetch, hparams]
          · intro _
            refine ⟨ExecEvent.execEv p ::
                      (List.replicate d.fetches ExecEvent.fetchEv ++ tr1),
                    pl, ?_, ?_⟩
            · rw [List.getLast?_cons_cons]
              exact hpl
            · rw [htr1]
              simp

theorem executemany_specExecute_final {α β : Type} :
    ∀ (ps : List β) (c : DBAPICursor α) (bs : List (Batch α))
      (cf : DBAPICursor α) (bsf : List (Batch α)) (tr : List (ExecEvent β)),
      ps ≠ [] →
      executemany specExecute ps c bs = some (cf, bsf, tr) →
        cf.data = [] ∧ cf.state = QueryState.STATE_RUNNING := by
  intro ps
  induction ps with
  | nil => intro c bs cf bsf tr hne; exact absurd rfl hne
  | cons p qs ih =>
    intro c bs cf bsf tr _ h
    cases qs with
    | nil =>
      simp only [executemany, Option.some.injEq, Prod.mk.injEq] at h
      rw [← h.1]
      exact ⟨rfl, rfl⟩
    | cons q rest =>
      cases hd : drain bs (specExecute p c) with
      | none => simp [executemany, hd] at h
      | some d =>
        cases hrec : executemany specExecute (q :: rest) d.c d.bs with
        | none => simp [executemany, hd, hrec] at h
        | some out =>
          obtain ⟨cf0, bsf0, tr0⟩ := out
          simp only [executemany, hd, hrec, Option.some.injEq,
                     Prod.mk.injEq] at h
          have := ih d.c d.bs cf0 bsf0 tr0 (by simp) hrec
          rw [← h.1]
          exact this

/-- C3: `executemany` executes each parameter set except the last and, after
each such execution, repeatedly invokes the `_fetch_more` hook until the
state reaches FINISHED (and exactly until then); it then executes the final
parameter set last, with no hook invocation after it, leaving a fresh result
set for the caller; for the empty sequence no execution occurs at all. -/
theorem executemany_trace_spec {α β : Type}
    (ex : β → DBAPICursor α → DBAPICursor α) :
    (∀ (c : DBAPICursor α) (bs : List (Batch α)),
       executemany ex [] c bs = some (c, bs, [])) ∧
    (∀ (p : β) (c : DBAPICursor α) (bs : List (Batch α)),
       executemany ex [p] c bs = some (ex p c, bs, [ExecEvent.execEv p])) ∧
    (∀ (p q : β) (rest : List β) (c : DBAPICursor α) (bs : List (Batch α)),
       executemany ex (p :: q :: rest) c bs =
         match drain bs (ex p c) with
         | none => none
         | some d =>
           match executemany ex (q :: rest) d.c d.bs with
           | none => none
           | some (cf, bsf, tr) =>
             some (cf, bsf, ExecEvent.execEv p ::
                     (List.replicate d.fetches ExecEvent.fetchEv ++ tr))) ∧
    (∀ (bs : List (Batch α)) (c : DBAPICursor α) (r : DrainResult α),
       drain bs c = some r →
         r.c = (bs.take r.fetches).foldl fetchMore c ∧
         r.bs = bs.drop r.fetches ∧
         r.c.state = QueryState.STATE_FINISHED ∧
         (∀ j, j < r.fetches →
           ((bs.take j).foldl fetchMore c).state ≠ QueryState.STATE_FINISHED)) ∧
    (∀ (ps : List β) (c : DBAPICursor α) (bs : List (Batch α))
       (cf : DBAPICursor α) (bsf : List (Batch α)) (tr : List (ExecEvent β)),
       executemany ex ps c bs = some (cf, bsf, tr) →
         execParams tr = ps ∧
         (ps ≠ [] → ∃ tr0 pl, ps.getLast? = some pl ∧
            tr = tr0 ++ [ExecEvent.execEv pl])) ∧
    (∀ (ps : List β) (c : DBAPICursor α) (bs : List (Batch α))
       (cf : DBAPICursor α) (bsf : List (Batch α)) (tr : List (ExecEvent β)),
       ps ≠ [] →
       executemany specExecute ps c bs = some (cf, bsf, tr) →
         cf.data = [] ∧ cf.state = QueryState.STATE_RUNNING) :=
  ⟨fun _ _ => rfl, fun _ _ _ => rfl, fun _ _ _ _ _ => rfl,
   drain_characterization, executemany_trace ex,
   executemany_specExecute_final⟩

/-- Witness for C3: a concrete two-parameter-set run over the modelled
execute, whose trace executes parameter set 1, drains with one hook
invocation, then executes parameter set 2 last. -/
theorem executemany_trace_spec_witness :
    execParams [ExecEvent.execEv (1 : Nat), ExecEvent.fetchEv,
                ExecEvent.execEv 2] = [1, 2] :=
  ((executemany_trace_spec
      (specExecute : Nat → DBAPICursor Nat → DBAPICursor Nat)).2.2.2.2.1
    [1, 2] (runningCursor Nat) [⟨[], QueryState.STATE_FINISHED⟩]
    (runningCursor Nat) []
    [ExecEvent.execEv 1, ExecEvent.fetchEv, ExecEvent.execEv 2]
    (by rfl)).1

/-- The single-quote character. -/
def sq : Char := Char.ofNat 39

/-- Embedding of Python values as far as the escaper observes them: numbers
(`int` and `long` as one constructor; `float` carries its literal rendering
opaquely, since no arithmetic is ever performed on it), Python 2 byte
strings (`str`) as byte lists, `unicode` strings as character lists, `None`,
and the container shapes `list`, `tuple` and `dict` (keys modelled as
strings). -/
inductive PyVal
  | int (n : Int)
  | float (r : String)
  | str (b : List Nat)
  | unicode (s : List Char)
  | noneVal
  | list (xs : List PyVal)
  | tuple (xs : List PyVal)
  | dict (entries : List (String × PyVal))

/-- Whether a byte is a UTF-8 continuation byte. -/
def isCont (b : Nat) : Bool := 128 ≤ b && b < 192

/-- Modelled from the runtime: strict UTF-8 decoding of a byte sequence, as
performed by `str.decode(utf-8)` inside `escape_string`; `Option.none`
models a `UnicodeDecodeError`.  Stray continuation bytes, overlong
encodings, surrogates, values beyond U+10FFFF and truncated sequences are
rejected. -/
def utf8Decode : List Nat → Option (List Char)
  | [] => some []
  | b :: rest =>
    if b < 128 then
      match utf8Decode rest with
      | none => none
      | some cs => some (Char.ofNat b :: cs)
    else if b < 192 then none
    else if b < 224 then
      match rest with
      | b1 :: rest1 =>
        if isCont b1 then
          let cp := (b - 192) * 64 + (b1 - 128)
          if cp < 128 then none
          else
            match utf8Decode rest1 with
            | none => none
            | some cs => some (Char.ofNat cp :: cs)
        else none
      | [] => none
    else if b < 240 then
      match rest with
      | b1 :: b2 :: rest2 =>
        if isCont b1 && isCont b2 then
          let cp := (b - 224) * 4096 + (b1 - 128) * 64 + (b2 - 128)
          if cp < 2048 then none
          else if 55296 ≤ cp && cp < 57344 then none
          else
            match utf8Decode rest2 with
            | none => none
            | some cs => some (Char.ofNat cp :: cs)
        else none
      | _ => none
    else if b < 248 then
      match rest with
      | b1 :: b2 :: b3 :: rest3 =>
        if isCont b1 && isCont b2 && isCont b3 then
          let cp := (b - 240) * 262144 + (b1 - 128) * 4096 +
                    (b2 - 128) * 64 + (b3 - 128)
          if cp < 65536 then none
          else if 1114111 < cp then none
          else
            match utf8Decode rest3 with
            | none => none
            | some cs => some (Char.ofNat cp :: cs)
        else none
      | _ => none
    else none

/-- Embedding of `item.replace` with a single-quote pattern and a doubled
single-quote replacement: since the pattern is one character, the
replacement doubles every single quote and leaves all else unchanged. -/
def escapeQuotes : List Char → List Char
  | [] => []
  | c :: rest => (if c = sq then [sq, sq] else [c]) ++ escapeQuotes rest

mutual

/-- Modelled from the runtime: `repr` of a value, as used by the string
conversion of containers.  String reprs are simplified to quote wrapping
without inner escaping (exact for contents free of quotes, backslashes and
non-printables); `int` and `long` are not distinguished. -/
def pyRepr : PyVal → String
  | PyVal.int n => toString n
  | PyVal.float r => r
  | PyVal.str b =>
    String.singleton sq ++ String.mk (b.map Char.ofNat) ++ String.singleton sq
  | PyVal.unicode s =>
    "u" ++ String.singleton sq ++ String.mk s ++ String.singleton sq
  | PyVal.noneVal => "None"
  | PyVal.list xs => "[" ++ pyReprList xs ++ "]"
  | PyVal.tuple [x] => "(" ++ pyRepr x ++ ",)"
  | PyVal.tuple xs => "(" ++ pyReprList xs ++ ")"
  | PyVal.dict es => "\x7b" ++ pyReprEntries es ++ "\x7d"

/-- Comma-separated reprs of the elements of a container. -/
def pyReprList : List PyVal → String
  | [] => ""
  | [x] => pyRepr x
  | x :: y :: rest => pyRepr x ++ ", " ++ pyReprList (y :: rest)

/-- Comma-separated key/value reprs of a dict. -/
def pyReprEntries : List (String × PyVal) → String
  | [] => ""
  | [(k, v)] =>
    String.singleton sq ++ k ++ String.singleton sq ++ ": " ++ pyRepr v
  | (k, v) :: e :: rest =>
    String.singleton sq ++ k ++ String.singleton sq ++ ": " ++ pyRepr v ++
      ", " ++ pyReprEntries (e :: rest)

end

/-- Modelled from the runtime: the text produced by interpolating a value
into a format template, i.e. its unicode conversion: numbers print their
literal, byte strings interpolate their (ascii) characters, unicode strings
their characters, and `None` and containers fall back to `repr`. -/
def pyStr : PyVal → String
  | PyVal.int n => toString n
  | PyVal.float r => r
  | PyVal.str b => String.mk (b.map Char.ofNat)
  | PyVal.unicode s => String.mk s
  | v => pyRepr v

namespace ParamEscaper

/-- Embedding of `ParamEscaper.escape_number`: return the item unchanged. -/
def escape_number (item : PyVal) : PyVal := item

/-- Embedding of `ParamEscaper.escape_string`: a Python 2 byte string is
first decoded as UTF-8 (a `UnicodeDecodeError` propagates on invalid
bytes); the text is then wrapped in single quotes with every embedded
single quote doubled.  A non-string argument would fail the `replace`
attribute lookup. -/
def escape_string (item : PyVal) : Except PyErr PyVal :=
  match item with
  | PyVal.str b =>
    match utf8Decode b with
    | none => Except.error PyErr.UnicodeDecodeError
    | some s => Except.ok (PyVal.unicode (sq :: (escapeQuotes s ++ [sq])))
  | PyVal.unicode s =>
    Except.ok (PyVal.unicode (sq :: (escapeQuotes s ++ [sq])))
  | _ => Except.error (PyErr.AttributeError "replace")

/-- Embedding of `ParamEscaper.escape_item`: `int`, `long` and `float` go to
`escape_number`; `str` and `unicode` go to `escape_string`; anything else
raises a `ProgrammingError` with the value interpolated after the text
"Unsupported object ". -/
def escape_item (item : PyVal) : Except PyErr PyVal :=
  match item with
  | PyVal.int n => Except.ok (escape_number (PyVal.int n))
  | PyVal.float r => Except.ok (escape_number (PyVal.float r))
  | PyVal.str b => escape_string (PyVal.str b)
  | PyVal.unicode s => escape_string (PyVal.unicode s)
  | other =>
    Except.error
      (PyErr.ProgrammingError ("Unsupported object " ++ pyStr other))

/-- Left-to-right `escape_item` over the elements of a sequence parameter,
as the generator inside the tuple constructor evaluates it; the first
failure propagates. -/
def escapeItemList : List PyVal → Except PyErr (List PyVal)
  | [] => Except.ok []
  | x :: rest =>
    match escape_item x with
    | Except.error e => Except.error e
    | Except.ok y =>
      match escapeItemList rest with
      | Except.error e => Except.error e
      | Except.ok ys => Except.ok (y :: ys)

/-- Left-to-right `escape_item` over the values of a mapping parameter with
the keys unchanged, as the dict comprehension over `iteritems` evaluates
it; the first failure propagates. -/
def escapeEntryList :
    List (String × PyVal) → Except PyErr (List (String × PyVal))
  | [] => Except.ok []
  | (k, v) :: rest =>
    match escape_item v with
    | Except.error e => Except.error e
    | Except.ok w =>
      match escapeEntryList rest with
      | Except.error e => Except.error e
      | Except.ok ws => Except.ok ((k, w) :: ws)

/-- Embedding of `ParamEscaper.escape_args`: a dict maps to a dict with the
same keys and escaped values; a list or tuple maps to a tuple of escaped
elements; any other shape raises a `ProgrammingError` with the value
interpolated after the text "Unsupported param format: ". -/
def escape_args (parameters : PyVal) : Except PyErr PyVal :=
  match parameters with
  | PyVal.dict entries =>
    match escapeEntryList entries with
    | Except.error e => Except.error e
    | Except.ok ws => Except.ok (PyVal.dict ws)
  | PyVal.list xs =>
    match escapeItemList xs with
    | Except.error e => Except.error e
    | Except.ok ys => Except.ok (PyVal.tuple ys)
  | PyVal.tuple xs =>
    match escapeItemList xs with
    | Except.error e => Except.error e
    | Except.ok ys => Except.ok (PyVal.tuple ys)
  | other =>
    Except.error
      (PyErr.ProgrammingError ("Unsupported param format: " ++ pyStr other))

end ParamEscaper

/-- Whether the value has one of the parameter shapes `escape_args`
supports (`dict`, `list` or `tuple`). -/
def isParamShape : PyVal → Bool
  | PyVal.dict _ => true
  | PyVal.list _ => true
  | PyVal.tuple _ => true
  | _ => false

/-- Whether the value is an `int`, `long` or `float` number. -/
def isNumberVal : PyVal → Bool
  | PyVal.int _ => true
  | PyVal.float _ => true
  | _ => false

/-- Whether the value is textual (`basestring`: `str` or `unicode`). -/
def isTextVal : PyVal → Bool
  | PyVal.str _ => true
  | PyVal.unicode _ => true
  | _ => false

theorem escapeItemList_ok :
    ∀ (xs ys : List PyVal), ParamEscaper.escapeItemList xs = Except.ok ys →
      List.Forall₂ (fun x y => ParamEscaper.escape_item x = Except.ok y)
        xs ys := by
  intro xs
  induction xs with
  | nil =>
    intro ys h
    simp only [ParamEscaper.escapeItemList, Except.ok.injEq] at h
    rw [← h]
    exact List.Forall₂.nil
  | cons x rest ih =>
    intro ys h
    cases he : ParamEscaper.escape_item x with
    | error e => simp [ParamEscaper.escapeItemList, he] at h
    | ok y =>
      cases hr : ParamEscaper.escapeItemList rest with
      | error e => simp [ParamEscaper.escapeItemList, he, hr] at h
      | ok ys0 =>
        simp only [ParamEscaper.escapeItemList, he, hr,
                   Except.ok.injEq] at h
        rw [← h]
        exact List.Forall₂.cons he (ih ys0 hr)

theorem escapeItemList_total :
    ∀ (xs : List PyVal),
      (∀ x ∈ xs, ∃ w, ParamEscaper.escape_item x = Except.ok w) →
      ∃ ys, ParamEscaper.escapeItemList xs = Except.ok ys := by
  intro xs
  induction xs with
  | nil => exact fun _ => ⟨[], rfl⟩
  | cons x rest ih =>
    intro h
    obtain ⟨y, hy⟩ := h x (by simp)
    obtain ⟨ys0, hys0⟩ := ih (fun z hz => h z (by simp [hz]))
    exact ⟨y :: ys0, by simp [ParamEscaper.escapeItemList, hy, hys0]⟩

theorem escapeEntryList_ok :
    ∀ (es ws : List (String × PyVal)),
      ParamEscaper.escapeEntryList es = Except.ok ws →
      List.Forall₂ (fun kv kw => kw.1 = kv.1 ∧
        ParamEscaper.escape_item kv.2 = Except.ok kw.2) es ws := by
  intro es
  induction es with
  | nil =>
    intro ws h
    simp only [ParamEscaper.escapeEntryList, Except.ok.injEq] at h
    rw [← h]
    exact List.Forall₂.nil
  | cons kv rest ih =>
    intro ws h
    obtain ⟨k, v⟩ := kv
    cases he : ParamEscaper.escape_item v with
    | error e => simp [ParamEscaper.escapeEntryList, he] at h
    | ok w =>
      cases hr : ParamEscaper.escapeEntryList rest with
      | error e => simp [ParamEscaper.escapeEntryList, he, hr] at h
      | ok ws0 =>
        simp only [ParamEscaper.escapeEntryList, he, hr,
                   Except.ok.injEq] at h
        rw [← h]
        exact List.Forall₂.cons ⟨rfl, he⟩ (ih ws0 hr)

theorem escapeEntryList_total :
    ∀ (es : List (String × PyVal)),
      (∀ kv ∈ es, ∃ w, ParamEscaper.escape_item kv.2 = Except.ok w) →
      ∃ ws, ParamEscaper.escapeEntryList es = Except.ok ws := by
  intro es
  induction es with
  | nil => exact fun _ => ⟨[], rfl⟩
  | cons kv rest ih =>
    intro h
    obtain ⟨k, v⟩ := kv
    obtain ⟨w, hw⟩ := h (k, v) (by simp)
    obtain ⟨ws0, hws0⟩ := ih (fun z hz => h z (by simp [hz]))
    exact ⟨(k, w) :: ws0, by simp [ParamEscaper.escapeEntryList, hw, hws0]⟩

theorem forall₂_keys_eq :
    ∀ (es ws : List (String × PyVal)),
      List.Forall₂ (fun kv kw => kw.1 = kv.1 ∧
        ParamEscaper.escape_item kv.2 = Except.ok kw.2) es ws →
      ws.map Prod.fst = es.map Prod.fst := by
  intro es ws h
  induction h with
  | nil => rfl
  | cons hab _ ih => simp [ih, hab.1]

/-- C4: `escape_args` maps a dict to a new dict with exactly the same keys
in the same order, every value the `escape_item` image of the original
value; it maps a list or tuple to a new tuple of the same length with each
element escaped in order; and on any other input shape it raises a
`ProgrammingError` whose message is "Unsupported param format: " followed by
the interpolated input. -/
theorem escape_args_shape_spec :
    (∀ (entries : List (String × PyVal)) (out : PyVal),
       ParamEscaper.escape_args (PyVal.dict entries) = Except.ok out →
       ∃ ws, out = PyVal.dict ws ∧
         ws.map Prod.fst = entries.map Prod.fst ∧
         List.Forall₂ (fun kv kw => kw.1 = kv.1 ∧
           ParamEscaper.escape_item kv.2 = Except.ok kw.2) entries ws) ∧
    (∀ entries : List (String × PyVal),
       (∀ kv ∈ entries, ∃ w, ParamEscaper.escape_item kv.2 = Except.ok w) →
       ∃ out, ParamEscaper.escape_args (PyVal.dict entries) = Except.ok out) ∧
    (∀ (xs : List PyVal) (out : PyVal),
       (ParamEscaper.escape_args (PyVal.list xs) = Except.ok out ∨
        ParamEscaper.escape_args (PyVal.tuple xs) = Except.ok out) →
       ∃ ys, out = PyVal.tuple ys ∧ ys.length = xs.length ∧
         List.Forall₂ (fun x y => ParamEscaper.escape_item x = Except.ok y)
           xs ys) ∧
    (∀ xs : List PyVal,
       (∀ x ∈ xs, ∃ w, ParamEscaper.escape_item x = Except.ok w) →
       ∃ ys, ParamEscaper.escape_args (PyVal.list xs)
               = Except.ok (PyVal.tuple ys) ∧
             ParamEscaper.escape_args (PyVal.tuple xs)
               = Except.ok (PyVal.tuple ys)) ∧
    (∀ v : PyVal, isParamShape v = false →
       ParamEscaper.escape_args v = Except.error (PyErr.ProgrammingError
         ("Unsupported param format: " ++ pyStr v))) := by
  refine ⟨?_, ?_, ?_, ?_, ?_⟩
  · intro entries out h
    cases hr : ParamEscaper.escapeEntryList entries with
    | error e => simp [ParamEscaper.escape_args, hr] at h
    | ok ws =>
      simp only [ParamEscaper.escape_args, hr, Except.ok.injEq] at h
      have hall := escapeEntryList_ok entries ws hr
      exact ⟨ws, h.symm, forall₂_keys_eq entries ws hall, hall⟩
  · intro entries h
    obtain ⟨ws, hws⟩ := escapeEntryList_total entries h
    exact ⟨PyVal.dict ws, by simp [ParamEscaper.escape_args, hws]⟩
  · intro xs out h
    have hok : ∃ ys, ParamEscaper.escapeItemList xs = Except.ok ys ∧
        out = PyVal.tuple ys := by
      cases h with
      | inl hl =>
        cases hr : ParamEscaper.escapeItemList xs with
        | error e => simp [ParamEscaper.escape_args, hr] at hl
        | ok ys =>
          simp only [ParamEscaper.escape_args, hr, Except.ok.injEq] at hl
          exact ⟨ys, rfl, hl.symm⟩
      | inr ht =>
        cases hr : ParamEscaper.escapeItemList xs with
        | error e => simp [ParamEscaper.escape_args, hr] at ht
        | ok ys =>
          simp only [ParamEscaper.escape_args, hr, Except.ok.injEq] at ht
          exact ⟨ys, rfl, ht.symm⟩
    obtain ⟨ys, hys, hout⟩ := hok
    have hall := escapeItemList_ok xs ys hys
    exact ⟨ys, hout, (List.Forall₂.length_eq hall).symm, hall⟩
  · intro xs h
    obtain ⟨ys, hys⟩ := escapeItemList_total xs h
    exact ⟨ys, by simp [ParamEscaper.escape_args, hys],
               by simp [ParamEscaper.escape_args, hys]⟩
  · intro v hv
    cases v with
    | dict es => simp [isParamShape] at hv
    | list xs => simp [isParamShape] at hv
    | tuple xs => simp [isParamShape] at hv
    | int n => rfl
    | float r => rfl
    | str b => rfl
    | unicode s => rfl
    | noneVal => rfl

/-- Witness for C4: a bare scalar is not a supported parameter shape and
raises the "Unsupported param format" error. -/
theorem escape_args_shape_spec_witness :
    ParamEscaper.escape_args (PyVal.int 5) = Except.error
      (PyErr.ProgrammingError
        ("Unsupported param format: " ++ pyStr (PyVal.int 5))) :=
  escape_args_shape_spec.2.2.2.2 (PyVal.int 5) rfl

/-- C5: `escape_string` returns the single-quote character, then the text
with every embedded single quote doubled, then the single-quote character; a
raw byte-string input is first decoded as UTF-8 text; in particular the
text O'Brien escapes to 'O''Brien'. -/
theorem escape_string_quote_doubling :
    (∀ s : List Char, ParamEscaper.escape_string (PyVal.unicode s)
       = Except.ok (PyVal.unicode (sq :: (escapeQuotes s ++ [sq])))) ∧
    (∀ (b : List Nat) (s : List Char), utf8Decode b = some s →
       ParamEscaper.escape_string (PyVal.str b)
         = Except.ok (PyVal.unicode (sq :: (escapeQuotes s ++ [sq])))) ∧
    ParamEscaper.escape_string
        (PyVal.unicode (['O', sq] ++ String.toList "Brien"))
      = Except.ok (PyVal.unicode
          ([sq, 'O', sq, sq] ++ String.toList "Brien" ++ [sq])) := by
  refine ⟨fun s => rfl, fun b s h => ?_, by rfl⟩
  simp [ParamEscaper.escape_string, h]

/-- Witness for C5: the UTF-8 bytes of O'Brien decode and escape to
'O''Brien'. -/
theorem escape_string_quote_doubling_witness :
    ParamEscaper.escape_string (PyVal.str [79, 39, 66, 114, 105, 101, 110])
      = Except.ok (PyVal.unicode
          [sq, 'O', sq, sq, 'B', 'r', 'i', 'e', 'n', sq]) :=
  escape_string_quote_doubling.2.1 [79, 39, 66, 114, 105, 101, 110]
    ['O', sq, 'B', 'r', 'i', 'e', 'n'] (by decide)

/-- C6: `escape_item` returns integers and floats unchanged through the
identity `escape_number`, hands textual values to `escape_string`, and for
every other value raises a `ProgrammingError` whose message is "Unsupported
object " followed by the interpolated value. -/
theorem escape_item_dispatch :
    (∀ v : PyVal, ParamEscaper.escape_number v = v) ∧
    (∀ n : Int, ParamEscaper.escape_item (PyVal.int n)
       = Except.ok (PyVal.int n)) ∧
    (∀ r : String, ParamEscaper.escape_item (PyVal.float r)
       = Except.ok (PyVal.float r)) ∧
    (∀ b : List Nat, ParamEscaper.escape_item (PyVal.str b)
       = ParamEscaper.escape_string (PyVal.str b)) ∧
    (∀ s : List Char, ParamEscaper.escape_item (PyVal.unicode s)
       = ParamEscaper.escape_string (PyVal.unicode s)) ∧
    (∀ v : PyVal, isNumberVal v = false → isTextVal v = false →
       ParamEscaper.escape_item v = Except.error (PyErr.ProgrammingError
         ("Unsupported object " ++ pyStr v))) := by
  refine ⟨fun v => rfl, fun n => rfl, fun r => rfl, fun b => rfl,
          fun s => rfl, ?_⟩
  intro v h1 h2
  cases v with
  | int n => simp [isNumberVal] at h1
  | float r => simp [isNumberVal] at h1
  | str b => simp [isTextVal] at h2
  | unicode s => simp [isTextVal] at h2
  | noneVal => rfl
  | list xs => rfl
  | tuple xs => rfl
  | dict es => rfl

/-- Witness for C6: `None` is neither numeric nor textual and raises the
"Unsupported object" error. -/
theorem escape_item_dispatch_witness :
    ParamEscaper.escape_item PyVal.noneVal = Except.error
      (PyErr.ProgrammingError ("Unsupported object " ++ pyStr PyVal.noneVal)) :=
  escape_item_dispatch.2.2.2.2.2 PyVal.noneVal rfl rfl

/-- Embedding of `DBAPITypeObject`: an ordered collection of underlying
type code values considered equivalent to one logical type. -/
structure DBAPITypeObject (α : Type) where
  values : List α

/-- Embedding of `DBAPITypeObject.__cmp__`: zero when the candidate is among
the stored values; otherwise the result of the runtime order comparison of
the candidate against the stored collection as one composite value, passed
in as `lt` (1 when the candidate orders below the collection, else -1,
following the self-relative sign convention of `__cmp__`). -/
def DBAPITypeObject.cmp {α : Type} [DecidableEq α] (self : DBAPITypeObject α)
    (lt : α → List α → Bool) (other : α) : Int :=
  if other ∈ self.values then 0
  else if lt other self.values then 1 else -1

/-- C7: the compare-against-scalar operation returns zero exactly when the
scalar is present among the stored values; otherwise it returns the
definite non-zero result determined by comparing the scalar against the
stored collection as one composite value. -/
theorem typeObject_cmp_membership {α : Type} [DecidableEq α]
    (t : DBAPITypeObject α) (lt : α → List α → Bool) (other : α) :
    (t.cmp lt other = 0 ↔ other ∈ t.values) ∧
    (other ∉ t.values →
      t.cmp lt other = (if lt other t.values then 1 else -1) ∧
      t.cmp lt other ≠ 0) := by
  constructor
  · constructor
    · intro h
      by_contra hmem
      unfold DBAPITypeObject.cmp at h
      rw [if_neg hmem] at h
      by_cases hl : lt other t.values = true <;> simp [hl] at h
    · intro hmem
      simp [DBAPITypeObject.cmp, hmem]
  · intro hmem
    unfold DBAPITypeObject.cmp
    rw [if_neg hmem]
    by_cases hl : lt other t.values = true <;> simp [hl]

/-- Modelled from the runtime: the CPython 2 mixed-type ordering places
numbers below tuples, so an integer candidate always orders below a stored
tuple of type codes; this instantiates the comparison parameter in the C7
witness. -/
def numLtTuple : Int → List Int → Bool := fun _ _ => true

/-- Witness for C7: the helper built from (1, 2, 3) compares equal to 2,
and yields the definite non-zero result 1 against 5. -/
theorem typeObject_cmp_membership_witness :
    DBAPITypeObject.cmp ⟨[1, 2, 3]⟩ numLtTuple 2 = 0 ∧
    DBAPITypeObject.cmp ⟨[1, 2, 3]⟩ numLtTuple 5 = 1 ∧
    DBAPITypeObject.cmp ⟨[1, 2, 3]⟩ numLtTuple 5 ≠ 0 := by
  refine ⟨(typeObject_cmp_membership ⟨[1, 2, 3]⟩ numLtTuple 2).1.mpr
            (by decide), ?_⟩
  have h := (typeObject_cmp_membership ⟨[1, 2, 3]⟩ numLtTuple 5).2
    (by decide)
  exact ⟨by simpa [numLtTuple] using h.1, h.2⟩

/-- Embedding of `DBAPICursor.next`: the body is
`raise NotImplementedError()`, whatever the cursor's state. -/
def DBAPICursor.next {α : Type} (_c : DBAPICursor α) :
    Except PyErr (Option α) :=
  Except.error PyErr.NotImplementedError

/-- Embedding of `DBAPICursor.__iter__`: return self. -/
def DBAPICursor.iter {α : Type} (c : DBAPICursor α) : DBAPICursor α := c

/-- C8: the cursor's iteration entry point always raises
`NotImplementedError`, on every cursor in every state, while the cursor
declares itself iterable by returning itself as its own iterator. -/
theorem next_raises_iter_self (α : Type) (c : DBAPICursor α) :
    c.next = Except.error PyErr.NotImplementedError ∧ c.iter = c :=
  ⟨rfl, rfl⟩

/-- Embedding of the `arraysize` property getter `return self._arraysize`:
it raises `AttributeError` when the backing attribute was never created
(the constructor does not create it; only the setter does, despite the
docstring's claimed default of 1). -/
def arraysizeGet {α : Type} (c : DBAPICursor α) : Except PyErr Nat :=
  match c.arraysizeAttr with
  | none => Except.error (PyErr.AttributeError "_arraysize")
  | some n => Except.ok n

/-- Embedding of the `arraysize` property setter: create or overwrite the
backing attribute. -/
def arraysizeSet {α : Type} (c : DBAPICursor α) (n : Nat) : DBAPICursor α :=
  { c with arraysizeAttr := some n }

/-- Outcome of one `fetchmany` call: an exception, divergence of the poll
loop, or the collected rows with the final cursor and the remaining batch
supply. -/
inductive ManyOutcome (α : Type)
  | err (e : PyErr)
  | diverge
  | ok (rows : List α) (c : DBAPICursor α) (bs : List (Batch α))
deriving DecidableEq

/-- The counting loop of `fetchmany`: call `fetchone` up to `size` times,
stopping early at the `None` sentinel and collecting the rows in order. -/
def fetchmanyLoop {α : Type} :
    Nat → DBAPICursor α → List (Batch α) → ManyOutcome α
  | 0, c, bs => ManyOutcome.ok [] c bs
  | n + 1, c, bs =>
    match fetchone c bs with
    | FetchOutcome.err e => ManyOutcome.err e
    | FetchOutcome.diverge => ManyOutcome.diverge
    | FetchOutcome.ok none c2 bs2 _ _ => ManyOutcome.ok [] c2 bs2
    | FetchOutcome.ok (some x) c2 bs2 _ _ =>
      match fetchmanyLoop n c2 bs2 with
      | ManyOutcome.err e => ManyOutcome.err e
      | ManyOutcome.diverge => ManyOutcome.diverge
      | ManyOutcome.ok rows c3 bs3 => ManyOutcome.ok (x :: rows) c3 bs3

/-- Embedding of `DBAPICursor.fetchmany`: a missing size argument falls back
to reading the `arraysize` property — whose failure propagates — before any
row is fetched. -/
def fetchmany {α : Type} (c : DBAPICursor α) (bs : List (Batch α))
    (size : Option Nat) : ManyOutcome α :=
  match size with
  | some n => fetchmanyLoop n c bs
  | none =>
    match arraysizeGet c with
    | Except.error e => ManyOutcome.err e
    | Except.ok n => fetchmanyLoop n c bs

/-- C9: on a cursor whose `arraysize` attribute has never been written — in
particular a freshly constructed cursor — reading `arraysize` raises
`AttributeError` (the backing field is only created by the setter, despite
the docstring's claimed default of 1), and therefore `fetchmany` with no
explicit size also fails with that error rather than fetching a default
batch. -/
theorem arraysize_unset_fetchmany_fails (α : Type) :
    (∀ p, (freshCursor α p).arraysizeAttr = none) ∧
    (∀ c : DBAPICursor α, c.arraysizeAttr = none →
       arraysizeGet c = Except.error (PyErr.AttributeError "_arraysize") ∧
       (∀ bs, fetchmany c bs none
          = ManyOutcome.err (PyErr.AttributeError "_arraysize"))) := by
  refine ⟨fun p => rfl, fun c hc => ⟨?_, fun bs => ?_⟩⟩
  · simp [arraysizeGet, hc]
  · simp [fetchmany, arraysizeGet, hc]

/-- Witness for C9: the fresh cursor fails both the `arraysize` read and the
size-defaulted `fetchmany`. -/
theorem arraysize_unset_fetchmany_fails_witness :
    arraysizeGet (freshCursor Nat 1)
      = Except.error (PyErr.AttributeError "_arraysize") ∧
    fetchmany (freshCursor Nat 1) [] none
      = ManyOutcome.err (PyErr.AttributeError "_arraysize") := by
  have h := (arraysize_unset_fetchmany_fails Nat).2 (freshCursor Nat 1) rfl
  exact ⟨h.1, h.2 []⟩

end Prestornado
